import Mathlib

/-!
# Weather dashboard core: a shallow embedding

This file embeds the fetch/validate/transform/error-mapping pipeline of the
weather-dashboard single-page application (`src/app/page.tsx`) and proves the
contract stated in its specification.

Modeling conventions:

* JavaScript `number` values that the pipeline merely moves around (temperatures,
  precipitation) are carried as `Int`; the code performs no arithmetic on them.
* JavaScript array indexing `xs[i]` returns `undefined` out of range; it is
  embedded as `xs[i]?` returning an `Option`.
* A JavaScript `Date` holds a time value; for the date-only arithmetic used here
  the time value is represented by its UTC day number (days since 1970-01-01).
  The conversions between day numbers and civil `(year, month, day)` triples
  implement the standard Gregorian-calendar algorithms, which agree with
  ECMAScript `YearFromTime` / `MonthFromTime` / `DateFromTime` and `MakeDay`.
  The clock is modeled at UTC offset zero; the spec (§9) explicitly treats the
  reference code's locale sensitivity as an unspecified defect boundary.
* Asynchronous settling is modeled by passing the outcome of each awaited
  operation (the `fetch` call and `response.json()`) as explicit data, and
  `React.useState` state as an explicit record threaded through the operations.
* The request URL built by `fetchData` interpolates the (floating-point)
  coordinates; no claim concerns the URL string, so it is not modeled.
-/

/-! ## Calendar arithmetic

`civilToDays` and `daysToCivil` convert between a civil Gregorian date and its
day number relative to 1970-01-01 (Howard Hinnant's `days_from_civil` /
`civil_from_days`, the standard implementations of the conversions that
ECMAScript's `Date` specifies).  On `Int`, `/` and `%` are Euclidean division
and remainder, which for the positive divisors used here coincide with the
floor division these algorithms require. -/

def civilToDays (y : Int) (m d : Nat) : Int :=
  let y' : Int := if m ≤ 2 then y - 1 else y
  let era : Int := y' / 400
  let yoe : Int := y' - era * 400
  let mp : Nat := if 2 < m then m - 3 else m + 9
  let doy : Int := (153 * (mp : Int) + 2) / 5 + (d : Int) - 1
  let doe : Int := yoe * 365 + yoe / 4 - yoe / 100 + doy
  era * 146097 + doe - 719468

def daysToCivil (z : Int) : Int × Nat × Nat :=
  let z' := z + 719468
  let era : Int := z' / 146097
  let doe : Int := z' - era * 146097
  let yoe : Int := (doe - doe / 1460 + doe / 36524 - doe / 146096) / 365
  let doy : Int := doe - (365 * yoe + yoe / 4 - yoe / 100)
  let mp : Int := (5 * doy + 2) / 153
  let d : Int := doy - (153 * mp + 2) / 5 + 1
  let m : Int := if mp < 10 then mp + 3 else mp - 9
  let y : Int := yoe + era * 400 + (if m ≤ 2 then 1 else 0)
  (y, m.toNat, d.toNat)

/-- Gregorian leap-year rule, as in ECMAScript `DaysInYear`. -/
def isLeapYear (y : Int) : Bool :=
  y % 4 == 0 && (y % 100 != 0 || y % 400 == 0)

/-- Length of month `m` (1-based) in year `y`. -/
def daysInMonth (y : Int) (m : Nat) : Nat :=
  if m = 2 then (if isLeapYear y then 29 else 28)
  else if m = 4 ∨ m = 6 ∨ m = 9 ∨ m = 11 then 30
  else 31

/-- Numeric value of a decimal digit character. -/
def digitVal (c : Char) : Nat := c.toNat - 48

/-- Parse a strict ISO `YYYY-MM-DD` date string into its UTC day number, or
`none` when the string is not a well-formed calendar date.  This models the
time value an ECMAScript `Date` constructed from such a string holds: a valid
ISO date-only form denotes UTC midnight of that day, and a malformed or
out-of-range form yields an invalid date (time value NaN), represented here by
`none`. -/
def parseDate (s : String) : Option Int :=
  match s.toList with
  | [y1, y2, y3, y4, h1, m1, m2, h2, d1, d2] =>
    if y1.isDigit && y2.isDigit && y3.isDigit && y4.isDigit && h1 == '-'
        && m1.isDigit && m2.isDigit && h2 == '-' && d1.isDigit && d2.isDigit then
      let y : Int := (1000 * digitVal y1 + 100 * digitVal y2 + 10 * digitVal y3
        + digitVal y4 : Nat)
      let m : Nat := 10 * digitVal m1 + digitVal m2
      let d : Nat := 10 * digitVal d1 + digitVal d2
      if 1 ≤ m ∧ m ≤ 12 ∧ 1 ≤ d ∧ d ≤ daysInMonth y m then some (civilToDays y m d)
      else none
    else none
  | _ => none

/-! ## Date utilities of the page

`isValidDateRange`, `getTodayDateString` and `getDateStringDaysAgo` from
`src/app/page.tsx`.  A `Date` built from a string carries its parse result
(`Option Int`); relational comparison of two `Date`s compares their time
values, and any comparison involving an invalid date (NaN) is false. -/

/-- `isValidDateRange(startDate, endDate)`:
`new Date(startDate) <= new Date(endDate)`.  A NaN time value on either side
makes the comparison false. -/
def isValidDateRange (startDate endDate : String) : Bool :=
  match parseDate startDate, parseDate endDate with
  | some s, some e => decide (s ≤ e)
  | _, _ => false

/-- Zero-padded two-digit rendering of a month or day component. -/
def pad2 (n : Nat) : String :=
  if n < 10 then "0" ++ toString n else toString n

/-- Zero-padded four-digit rendering of a year component (the years reachable
in this application's claims all lie in `[0, 9999]`; ECMAScript's
expanded-year format for other years is not modeled). -/
def pad4 (n : Nat) : String :=
  if n < 10 then "000" ++ toString n
  else if n < 100 then "00" ++ toString n
  else if n < 1000 then "0" ++ toString n
  else toString n

/-- The date part of `toISOString()` for a civil date triple. -/
def isoDateString (c : Int × Nat × Nat) : String :=
  (if 0 ≤ c.1 ∧ c.1 ≤ 9999 then pad4 c.1.toNat else toString c.1)
    ++ "-" ++ pad2 c.2.1 ++ "-" ++ pad2 c.2.2

/-- `getTodayDateString()`: `new Date().toISOString().split('T')[0]`, with the
clock's current UTC day number passed explicitly as `now`. -/
def getTodayDateString (now : Int) : String :=
  isoDateString (daysToCivil now)

/-- ECMAScript `MakeDay(y, m, dayArg)` restricted to an in-range month: the day
number of day `dayArg` counted from the first of month `m` of year `y`.
`dayArg` may lie outside `[1, daysInMonth]`; this is how `setDate` normalizes
month and year rollover. -/
def makeDay (y : Int) (m : Nat) (dayArg : Int) : Int :=
  civilToDays y m 1 + (dayArg - 1)

/-- `getDateStringDaysAgo(daysAgo)`:
`const date = new Date(); date.setDate(date.getDate() - daysAgo);
return date.toISOString().split('T')[0];` with the clock's current UTC day
number passed explicitly as `now`.  `getDate()` reads the day-of-month
component and `setDate` rebuilds the time value through `MakeDay`. -/
def getDateStringDaysAgo (now : Int) (daysAgo : Nat) : String :=
  let c := daysToCivil now
  isoDateString (daysToCivil (makeDay c.1 c.2.1 ((c.2.2 : Int) - (daysAgo : Int))))

/-! ## Weather data model and transform

`DailyWeatherData`, `WeatherApiResponse` (its unused metadata fields are
omitted), `ChartDataPoint` and `transformWeatherData` from `src/app/page.tsx`.
The `for` loop over `[0, daily.time.length)` is rendered as a map over
`List.range`; each indexed read embeds as `xs[i]?` because the TypeScript
annotations notwithstanding, an out-of-range read yields `undefined` at
runtime. -/

structure DailyWeatherData where
  time : List String
  temperature_2m_max : List Int
  temperature_2m_min : List Int
  precipitation_sum : List Int
deriving DecidableEq

structure WeatherApiResponse where
  daily : DailyWeatherData
deriving DecidableEq

structure ChartDataPoint where
  date : Option String
  minTemp : Option Int
  maxTemp : Option Int
  precipitation : Option Int
deriving DecidableEq

def transformWeatherData (apiData : WeatherApiResponse) : List ChartDataPoint :=
  let daily := apiData.daily
  (List.range daily.time.length).map fun i =>
    { date := daily.time[i]?
      minTemp := daily.temperature_2m_min[i]?
      maxTemp := daily.temperature_2m_max[i]?
      precipitation := daily.precipitation_sum[i]? }

/-! ## The fetch client and data-state controller

`useWeatherData` / `fetchData` from `src/app/page.tsx`.  A thrown JavaScript
value is either an `Error` carrying a message or some other value; the `catch`
block stores `err.message` for the former and a fixed fallback string for the
latter.  The network environment supplies the settlement of `fetch(apiUrl)`
and, when that resolves, the settlement of `response.json()`. -/

inductive JSError where
  /-- A thrown value that is `instanceof Error`, with its `message`. -/
  | error (message : String)
  /-- A thrown value that is not an `Error` (and so carries no description). -/
  | nonError
deriving DecidableEq

/-- The message the `catch` block of `fetchData` stores for a thrown value
(lines 134-139 of `page.tsx`). -/
def JSError.caughtMessage : JSError → String
  | .error message => message
  | .nonError => "An unknown error occurred."

/-- A parsed JSON response body, as far as `fetchData` inspects it: either a
value whose shape matches `WeatherApiResponse`, or some other value of which
only its truthiness and its optional string `reason` field matter. -/
inductive JsonValue where
  | weather (w : WeatherApiResponse)
  | other (truthy : Bool) (reason : Option String)
deriving DecidableEq

/-- The check `errorData && errorData.reason` of line 122: the reason string
when the parsed body is truthy and has a truthy (non-empty) string `reason`
field, and nothing otherwise. -/
def JsonValue.reasonField : JsonValue → Option String
  | .weather _ => none
  | .other true (some r) => if r = "" then none else some r
  | .other _ _ => none

/-- The unchecked cast `const apiResponse: WeatherApiResponse = await
response.json()` of line 131 succeeds only when the parsed value has the
weather shape. -/
def JsonValue.asWeatherApiResponse : JsonValue → Option WeatherApiResponse
  | .weather w => some w
  | .other _ _ => none

/-- An HTTP response as `fetchData` consumes it: the `ok` flag, the status
line, and the settlement of `response.json()`. -/
structure Response where
  ok : Bool
  status : Nat
  statusText : String
  json : Except JSError JsonValue

/-- The network environment of one `fetchData` invocation: the settlement of
`await fetch(apiUrl)`. -/
structure FetchEnv where
  response : Except JSError Response

/-- The three `useState` pieces of `useWeatherData`:
`data`, `loading`, `error`. -/
structure FetchState where
  data : Option (List ChartDataPoint)
  loading : Bool
  error : Option String
deriving DecidableEq

/-- The initial state of the hook: `useState(null)`, `useState(false)`,
`useState(null)`. -/
def initialFetchState : FetchState :=
  { data := none, loading := false, error := none }

/-- The `TypeError` message raised when the ok-status body lacks the weather
shape and the transform dereferences a missing `daily` object.  The exact text
is engine-specific; no claim depends on it. -/
def castTypeErrorMessage : String :=
  "Cannot read properties of undefined"

/-- The `try` block of `fetchData` (lines 113-133): either the transformed
records, or the thrown JavaScript value.

* `fetch` rejected: the rejection propagates out of the `await`.
* `!response.ok`: build the error message — the status-line default, replaced
  by `"API Error: " ++ reason` when the body parses and carries a truthy
  `reason` — and throw it as an `Error`.
* `response.ok`: parse the body; a parse failure propagates out of the `await`,
  a non-weather shape raises a `TypeError` in the transform, and otherwise the
  transformed records are produced. -/
def fetchTryBlock (env : FetchEnv) : Except JSError (List ChartDataPoint) :=
  match env.response with
  | .error e => .error e
  | .ok response =>
    if response.ok = false then
      let defaultMsg := "Failed to fetch weather data: " ++ toString response.status
        ++ " " ++ response.statusText
      let errorMsg := match response.json with
        | .error _ => defaultMsg
        | .ok errorData => match errorData.reasonField with
          | some reason => "API Error: " ++ reason
          | none => defaultMsg
      .error (.error errorMsg)
    else
      match response.json with
      | .error e => .error e
      | .ok v => match v.asWeatherApiResponse with
        | some apiResponse => .ok (transformWeatherData apiResponse)
        | none => .error (.error castTypeErrorMessage)

/-- The state reset performed before the request is issued (lines 110-112):
`setLoading(true); setError(null); setData(null)`. -/
def fetchDataInFlight (prev : FetchState) : FetchState :=
  { prev with loading := true, error := none, data := none }

/-- One settled invocation of `fetchData`: reset the state, run the `try`
block, store its outcome (`setData` on success, `setError(caught message)` on
failure), and finally `setLoading(false)`. -/
def fetchData (prev : FetchState) (env : FetchEnv) : FetchState :=
  let inFlight := fetchDataInFlight prev
  let settled := match fetchTryBlock env with
    | .ok transformedData => { inFlight with data := some transformedData }
    | .error err => { inFlight with error := some err.caughtMessage }
  { settled with loading := false }

/-! ## The caller-side validation gate

`handleApplyFilter` from the `App` component (lines 318-325).  Its date-range
error lives in a `useState` of its own (`dateRangeError`), a channel distinct
from `FetchState.error`; the second component of the result records the
`fetchData` invocation (its date arguments) when one is made. -/

structure AppDateState where
  startDate : String
  endDate : String
  dateRangeError : Option String
deriving DecidableEq

def handleApplyFilter (st : AppDateState) : AppDateState × Option (String × String) :=
  if isValidDateRange st.startDate st.endDate = false then
    ({ st with dateRangeError := some "Start date cannot be after end date." }, none)
  else
    ({ st with dateRangeError := none }, some (st.startDate, st.endDate))

/-! ## Calendar lemmas -/

set_option maxHeartbeats 4000000 in
/-- Within one 400-year era, the year-of-era formula of `daysToCivil` never
puts the day-of-year outside `[0, 365]`. -/
theorem daysToCivil_doy_bounds (doe : Int) (h0 : 0 ≤ doe) (h1 : doe < 146097) :
    0 ≤ doe - (365 * ((doe - doe / 1460 + doe / 36524 - doe / 146096) / 365)
        + ((doe - doe / 1460 + doe / 36524 - doe / 146096) / 365) / 4
        - ((doe - doe / 1460 + doe / 36524 - doe / 146096) / 365) / 100) ∧
    doe - (365 * ((doe - doe / 1460 + doe / 36524 - doe / 146096) / 365)
        + ((doe - doe / 1460 + doe / 36524 - doe / 146096) / 365) / 4
        - ((doe - doe / 1460 + doe / 36524 - doe / 146096) / 365) / 100) ≤ 365 := by
  generalize hk : (doe - doe / 1460 + doe / 36524 - doe / 146096) / 365 = k
  have hk0 : 0 ≤ k := by omega
  have hk1 : k ≤ 399 := by omega
  interval_cases k <;> omega

set_option maxHeartbeats 4000000 in
/-- `civilToDays` is a left inverse of `daysToCivil`: decomposing any day
number into a civil date and recomposing it is the identity. -/
theorem civilToDays_daysToCivil (z : Int) :
    civilToDays (daysToCivil z).1 (daysToCivil z).2.1 (daysToCivil z).2.2 = z := by
  simp only [daysToCivil, civilToDays]
  generalize hera : (z + 719468) / 146097 = era
  generalize hdoe : z + 719468 - era * 146097 = doe
  have h0 : 0 ≤ doe := by omega
  have h1 : doe < 146097 := by omega
  have hdb := daysToCivil_doy_bounds doe h0 h1
  generalize hyoe : (doe - doe / 1460 + doe / 36524 - doe / 146096) / 365 = yoe at hdb ⊢
  have hyoe0 : 0 ≤ yoe := by omega
  have hyoe1 : yoe ≤ 399 := by omega
  clear hyoe
  generalize hdoy : doe - (365 * yoe + yoe / 4 - yoe / 100) = doy at hdb ⊢
  obtain ⟨hdoy0, hdoy1⟩ := hdb
  generalize hmp : (5 * doy + 2) / 153 = mp
  have hmp0 : 0 ≤ mp := by omega
  have hmp1 : mp ≤ 11 := by omega
  generalize hd : doy - (153 * mp + 2) / 5 + 1 = d
  have hd1 : 1 ≤ d := by omega
  have hF : (yoe + era * 400) / 400 = era := by
    rw [Int.add_mul_ediv_right _ _ (by norm_num : (400 : Int) ≠ 0),
      Int.ediv_eq_zero_of_lt hyoe0 (by omega)]
    ring
  have hnum : yoe + era * 400 - (yoe + era * 400) / 400 * 400 = yoe := by
    rw [hF]; ring
  have hG4 : (yoe + era * 400 - (yoe + era * 400) / 400 * 400) / 4 = yoe / 4 := by
    rw [hnum]
  have hG100 : (yoe + era * 400 - (yoe + era * 400) / 400 * 400) / 100 = yoe / 100 := by
    rw [hnum]
  interval_cases mp <;> norm_num <;> omega

/-- `civilToDays` is affine in the day component: day `d` of a month is
`d - 1` days after day 1 of that month. -/
theorem civilToDays_day_one (y : Int) (m d : Nat) :
    civilToDays y m d = civilToDays y m 1 + ((d : Int) - 1) := by
  simp only [civilToDays]
  push_cast
  ring

/-! ## Transform lemmas -/

theorem transformWeatherData_length (p : WeatherApiResponse) :
    (transformWeatherData p).length = p.daily.time.length := by
  simp [transformWeatherData]

theorem transformWeatherData_getElem (p : WeatherApiResponse) (i : Nat)
    (hi : i < p.daily.time.length) :
    (transformWeatherData p)[i]? =
      some { date := p.daily.time[i]?
             minTemp := p.daily.temperature_2m_min[i]?
             maxTemp := p.daily.temperature_2m_max[i]?
             precipitation := p.daily.precipitation_sum[i]? } := by
  simp [transformWeatherData, List.getElem?_map, List.getElem?_range, hi]

/-! ## The claims -/

/-- C1: on a well-formed payload whose four arrays all have length `N`,
`transformWeatherData` produces exactly `N` records, and record `i` pairs
`time[i]` with the minimum, maximum and precipitation at the same index, in
source order. -/
theorem transformWeatherData_equalLengths (p : WeatherApiResponse) (N : Nat)
    (htime : p.daily.time.length = N)
    (hmax : p.daily.temperature_2m_max.length = N)
    (hmin : p.daily.temperature_2m_min.length = N)
    (hpre : p.daily.precipitation_sum.length = N) :
    (transformWeatherData p).length = N ∧
    ∀ i, i < N →
      ∃ day tmax tmin prec,
        p.daily.time[i]? = some day ∧
        p.daily.temperature_2m_max[i]? = some tmax ∧
        p.daily.temperature_2m_min[i]? = some tmin ∧
        p.daily.precipitation_sum[i]? = some prec ∧
        (transformWeatherData p)[i]? =
          some { date := some day, minTemp := some tmin, maxTemp := some tmax,
                 precipitation := some prec } := by
  constructor
  · rw [transformWeatherData_length, htime]
  · intro i hi
    have h1 : i < p.daily.time.length := by omega
    have h2 : i < p.daily.temperature_2m_max.length := by omega
    have h3 : i < p.daily.temperature_2m_min.length := by omega
    have h4 : i < p.daily.precipitation_sum.length := by omega
    refine ⟨p.daily.time[i], p.daily.temperature_2m_max[i],
      p.daily.temperature_2m_min[i], p.daily.precipitation_sum[i],
      List.getElem?_eq_getElem h1, List.getElem?_eq_getElem h2,
      List.getElem?_eq_getElem h3, List.getElem?_eq_getElem h4, ?_⟩
    rw [transformWeatherData_getElem p i h1,
      List.getElem?_eq_getElem h1, List.getElem?_eq_getElem h2,
      List.getElem?_eq_getElem h3, List.getElem?_eq_getElem h4]

/-- Witness for C1 at the spec's own example payload (`N = 2`). -/
theorem transformWeatherData_equalLengths_witness :
    (transformWeatherData
      ⟨⟨["2024-01-01", "2024-01-02"], [30, 31], [20, 19], [0, 5]⟩⟩).length = 2 :=
  (transformWeatherData_equalLengths
    ⟨⟨["2024-01-01", "2024-01-02"], [30, 31], [20, 19], [0, 5]⟩⟩
    2 rfl rfl rfl rfl).1

/-- C2: after a `fetchData` invocation settles — whichever way — loading is
false and exactly one of `data`, `error` is populated: on success the records
are stored and `error` stays absent, on failure the caught message is stored
and `data` stays absent. -/
theorem fetchData_settled (prev : FetchState) (env : FetchEnv) :
    (fetchData prev env).loading = false ∧
    ((fetchData prev env).data.isSome ↔ (fetchData prev env).error = none) ∧
    (∀ records, fetchTryBlock env = .ok records →
      fetchData prev env = { data := some records, loading := false, error := none }) ∧
    (∀ e, fetchTryBlock env = .error e →
      fetchData prev env =
        { data := none, loading := false, error := some e.caughtMessage }) := by
  cases h : fetchTryBlock env <;>
    simp [fetchData, fetchDataInFlight, h]

/-- Witness for C2: a successful fetch of an empty payload settles with the
records stored, no error, and loading off. -/
theorem fetchData_settled_witness :
    fetchData initialFetchState ⟨.ok ⟨true, 200, "OK", .ok (.weather ⟨⟨[], [], [], []⟩⟩)⟩⟩ =
      { data := some [], loading := false, error := none } :=
  (fetchData_settled initialFetchState
    ⟨.ok ⟨true, 200, "OK", .ok (.weather ⟨⟨[], [], [], []⟩⟩)⟩⟩).2.2.1 [] rfl

/-- C3 (amended): on a non-success HTTP status, a body that parses to a truthy
value with a truthy (non-empty) `reason` field yields
`"API Error: " ++ reason`; a body that fails to parse, lacks the field, or
holds a falsy `reason` yields `"Failed to fetch weather data: status
statusText"`. -/
theorem fetchData_httpStatusError (prev : FetchState) (env : FetchEnv) (resp : Response)
    (henv : env.response = .ok resp) (hok : resp.ok = false) :
    (∀ v reason, resp.json = .ok v → v.reasonField = some reason →
      (fetchData prev env).error = some ("API Error: " ++ reason)) ∧
    (∀ e, resp.json = .error e →
      (fetchData prev env).error = some ("Failed to fetch weather data: "
        ++ toString resp.status ++ " " ++ resp.statusText)) ∧
    (∀ v, resp.json = .ok v → v.reasonField = none →
      (fetchData prev env).error = some ("Failed to fetch weather data: "
        ++ toString resp.status ++ " " ++ resp.statusText)) := by
  refine ⟨?_, ?_, ?_⟩
  · intro v reason hjson hreason
    simp [fetchData, fetchDataInFlight, fetchTryBlock, henv, hok, hjson, hreason,
      JSError.caughtMessage]
  · intro e hjson
    simp [fetchData, fetchDataInFlight, fetchTryBlock, henv, hok, hjson,
      JSError.caughtMessage]
  · intro v hjson hreason
    simp [fetchData, fetchDataInFlight, fetchTryBlock, henv, hok, hjson, hreason,
      JSError.caughtMessage]

/-- Counterexample to C3 as stated: an HTTP 400 response whose body parses as
JSON *containing* a `reason` field whose value is the empty string.  The claim
predicates the `"API Error: "` message on the field being present, but the
code's `errorData && errorData.reason` check also requires it to be truthy, so
the stored message is the status-line default, not `"API Error: "`. -/
theorem fetchData_httpStatusError_cex :
    (fetchData initialFetchState
        ⟨.ok ⟨false, 400, "Bad Request", .ok (.other true (some ""))⟩⟩).error =
      some "Failed to fetch weather data: 400 Bad Request" ∧
    (fetchData initialFetchState
        ⟨.ok ⟨false, 400, "Bad Request", .ok (.other true (some ""))⟩⟩).error ≠
      some ("API Error: " ++ "") := by
  constructor <;> decide

/-- Witness for C3 at the spec's own example: HTTP 400 with body
`{"reason": "bad coordinates"}`. -/
theorem fetchData_httpStatusError_witness :
    (fetchData initialFetchState
        ⟨.ok ⟨false, 400, "Bad Request", .ok (.other true (some "bad coordinates"))⟩⟩).error =
      some ("API Error: " ++ "bad coordinates") :=
  (fetchData_httpStatusError initialFetchState
      ⟨.ok ⟨false, 400, "Bad Request", .ok (.other true (some "bad coordinates"))⟩⟩
      ⟨false, 400, "Bad Request", .ok (.other true (some "bad coordinates"))⟩ rfl rfl).1
    (.other true (some "bad coordinates")) "bad coordinates" rfl (by decide)

/-- C4: a transport-level failure — the fetch rejecting, or the body parse
rejecting on a success status — stores the thrown value's own message, with
the fixed fallback string for throwables that carry no description; and in
every case `fetchData` settles into a state holding a value or a message,
never an unhandled fault. -/
theorem fetchData_transportError (prev : FetchState) (env : FetchEnv) :
    (∀ e, env.response = .error e →
      fetchData prev env =
        { data := none, loading := false, error := some e.caughtMessage }) ∧
    (∀ resp e, env.response = .ok resp → resp.ok = true → resp.json = .error e →
      fetchData prev env =
        { data := none, loading := false, error := some e.caughtMessage }) ∧
    (∀ message, (JSError.error message).caughtMessage = message) ∧
    JSError.nonError.caughtMessage = "An unknown error occurred." ∧
    ((fetchData prev env).data.isSome ∨ (fetchData prev env).error.isSome) := by
  refine ⟨?_, ?_, fun _ => rfl, rfl, ?_⟩
  · intro e henv
    simp [fetchData, fetchDataInFlight, fetchTryBlock, henv]
  · intro resp e henv hok hjson
    simp [fetchData, fetchDataInFlight, fetchTryBlock, henv, hok, hjson]
  · cases h : fetchTryBlock env <;>
      simp [fetchData, fetchDataInFlight, h]

/-- Witness for C4: a rejected fetch carrying a network error message. -/
theorem fetchData_transportError_witness :
    fetchData initialFetchState ⟨.error (.error "Network request failed")⟩ =
      { data := none, loading := false,
        error := some (JSError.error "Network request failed").caughtMessage } :=
  (fetchData_transportError initialFetchState
    ⟨.error (.error "Network request failed")⟩).1 (.error "Network request failed") rfl

/-- C5: `isValidDateRange` is true exactly when both strings parse as dates
with start ≤ end; equal dates are a valid single-day range and a start
strictly after the end is invalid. -/
theorem isValidDateRange_iff (startDate endDate : String) :
    (isValidDateRange startDate endDate = true ↔
      ∃ s e, parseDate startDate = some s ∧ parseDate endDate = some e ∧ s ≤ e) ∧
    isValidDateRange "2024-03-10" "2024-03-10" = true ∧
    isValidDateRange "2024-03-10" "2024-03-09" = false := by
  refine ⟨?_, by decide, by decide⟩
  cases hp : parseDate startDate <;> cases hq : parseDate endDate <;>
    simp [isValidDateRange, hp, hq]

/-- C6: `getDateStringDaysAgo n` renders the calendar date `n` days before
today — day-number subtraction followed by the civil-date conversion, so month
and year rollover are handled — and on today = 2024-03-10 it returns
2024-03-04 for `n = 6`, 2024-02-28 when today = 2024-03-05 (month rollover
across a leap February), and 2023-12-28 when today = 2024-01-03 (year
rollover). -/
theorem getDateStringDaysAgo_calendar (now : Int) (daysAgo : Nat) :
    (getDateStringDaysAgo now daysAgo = isoDateString (daysToCivil (now - daysAgo))) ∧
    getDateStringDaysAgo (civilToDays 2024 3 10) 6 = "2024-03-04" ∧
    getDateStringDaysAgo (civilToDays 2024 3 5) 6 = "2024-02-28" ∧
    getDateStringDaysAgo (civilToDays 2024 1 3) 6 = "2023-12-28" := by
  refine ⟨?_, by decide, by decide, by decide⟩
  have key : makeDay (daysToCivil now).1 (daysToCivil now).2.1
      (((daysToCivil now).2.2 : Int) - (daysAgo : Int)) = now - daysAgo := by
    have h := civilToDays_daysToCivil now
    have h2 := civilToDays_day_one (daysToCivil now).1 (daysToCivil now).2.1
      (daysToCivil now).2.2
    simp only [makeDay]
    omega
  simp only [getDateStringDaysAgo]
  rw [key]

/-- C7: when the start date parses strictly after the end date,
`handleApplyFilter` stores the dedicated range-error message in its own
channel and does not invoke the fetch; a fetch is invoked only when
`isValidDateRange` holds, and then the prior range error is cleared. -/
theorem handleApplyFilter_gate (st : AppDateState) :
    (∀ s e, parseDate st.startDate = some s → parseDate st.endDate = some e → e < s →
      handleApplyFilter st =
        ({ st with dateRangeError := some "Start date cannot be after end date." }, none)) ∧
    (∀ req, (handleApplyFilter st).2 = some req →
      isValidDateRange st.startDate st.endDate = true ∧
      (handleApplyFilter st).1.dateRangeError = none ∧
      req = (st.startDate, st.endDate)) ∧
    (isValidDateRange st.startDate st.endDate = true →
      handleApplyFilter st =
        ({ st with dateRangeError := none }, some (st.startDate, st.endDate))) := by
  by_cases hv : isValidDateRange st.startDate st.endDate = true
  · refine ⟨?_, ?_, ?_⟩
    · intro s e hp hq hlt
      rw [isValidDateRange, hp, hq] at hv
      simp at hv
      omega
    · intro req hreq
      simp [handleApplyFilter, hv] at hreq ⊢
      exact hreq.symm
    · intro _
      simp [handleApplyFilter, hv]
  · have hv' : isValidDateRange st.startDate st.endDate = false := by
      simpa using hv
    refine ⟨?_, ?_, ?_⟩
    · intro s e hp hq hlt
      simp [handleApplyFilter, hv']
    · intro req hreq
      simp [handleApplyFilter, hv'] at hreq
    · intro hcontra
      rw [hcontra] at hv'
      cases hv'

/-- Witness for C7: start 2024-03-10 after end 2024-03-09 sets the range error
and performs no fetch. -/
theorem handleApplyFilter_gate_witness :
    handleApplyFilter ⟨"2024-03-10", "2024-03-09", none⟩ =
      (⟨"2024-03-10", "2024-03-09", some "Start date cannot be after end date."⟩, none) :=
  (handleApplyFilter_gate ⟨"2024-03-10", "2024-03-09", none⟩).1 19792 19791
    (by decide) (by decide) (by decide)

/-- C8: the reset performed before the request leaves neither stale data nor a
stale error in the state and turns the loading flag on, for every prior
state. -/
theorem fetchDataInFlight_reset (prev : FetchState) :
    (fetchDataInFlight prev).data = none ∧
    (fetchDataInFlight prev).error = none ∧
    (fetchDataInFlight prev).loading = true :=
  ⟨rfl, rfl, rfl⟩

/-- C9: `transformWeatherData` always emits exactly one record per entry of the
`time` array alone — longer companion arrays are silently truncated — and when
a companion array is shorter, the affected fields come from out-of-range
indexing (`undefined`, embedded as `none`) instead of the transform failing. -/
theorem transformWeatherData_truncates (p : WeatherApiResponse) :
    (transformWeatherData p).length = p.daily.time.length ∧
    ∀ i, i < p.daily.time.length →
      (transformWeatherData p)[i]? =
        some { date := p.daily.time[i]?
               minTemp := p.daily.temperature_2m_min[i]?
               maxTemp := p.daily.temperature_2m_max[i]?
               precipitation := p.daily.precipitation_sum[i]? } :=
  ⟨transformWeatherData_length p, fun i hi => transformWeatherData_getElem p i hi⟩

/-- Witness for C9: with companion arrays of length 1 and a `time` array of
length 2, record 1 exists and its non-date fields are `undefined`. -/
theorem transformWeatherData_truncates_witness :
    1 < (["2024-01-01", "2024-01-02"] : List String).length ∧
    (transformWeatherData ⟨⟨["2024-01-01", "2024-01-02"], [30], [20], [0]⟩⟩)[1]? =
      some { date := some "2024-01-02", minTemp := none, maxTemp := none,
             precipitation := none } :=
  ⟨by decide,
    ((transformWeatherData_truncates ⟨⟨["2024-01-01", "2024-01-02"], [30], [20], [0]⟩⟩).2
      1 (by decide)).trans (by decide)⟩

/-- C10: `isValidDateRange` is total, and whenever either input fails to parse
as a date the comparison against the invalid date is false, so an unparseable
endpoint is never accepted. -/
theorem isValidDateRange_unparseable (startDate endDate : String)
    (h : parseDate startDate = none ∨ parseDate endDate = none) :
    isValidDateRange startDate endDate = false := by
  rcases h with h | h <;>
    · cases hp : parseDate startDate <;> cases hq : parseDate endDate <;>
        simp_all [isValidDateRange]

/-- Witness for C10: a malformed date string on the start side is rejected. -/
theorem isValidDateRange_unparseable_witness :
    (parseDate "not-a-date" = none ∨ parseDate "2024-03-10" = none) ∧
    isValidDateRange "not-a-date" "2024-03-10" = false :=
  ⟨Or.inl (by decide),
    isValidDateRange_unparseable "not-a-date" "2024-03-10" (Or.inl (by decide))⟩
